import Mathlib

/-!
Verification of the CDN load-balancing SDN controller (`ryu.py`).

The controller keeps two learning tables (`mac_to_port`, scoped per switch
dpid, and a global `ip_to_mac`), installs two baseline rules on switch
attach, and handles packet-ins with a priority decision tree:
MAC-learn, then ARP branch, then TCP-port-80 redirect branch, then a
generic learning-switch branch.  The definitions below are a shallow
embedding of `ryu.py`; flow-mod and packet-out messages are recorded as
values of `OutMsg` in the order the code sends them.
-/

namespace CDN

/-- Ethernet header as the code manipulates it: `ethernet.ethernet(dst, src, ethertype)`. -/
structure EthHeader where
  dst : String
  src : String
  ethertype : Nat
deriving DecidableEq, Repr

/-- ARP fields the handler reads (`_arp.src_ip`, `_arp.src_mac`). -/
structure ArpHeader where
  src_mac : String
  src_ip : String
  dst_mac : String
  dst_ip : String
deriving DecidableEq, Repr

/-- IPv4 header fields, exactly the keyword arguments the rewrite at
lines 143-149 of `ryu.py` copies. -/
structure Ipv4Header where
  version : Nat
  header_length : Nat
  tos : Nat
  total_length : Nat
  identification : Nat
  flags : Nat
  offset : Nat
  ttl : Nat
  proto : Nat
  csum : Nat
  src : String
  dst : String
deriving DecidableEq, Repr

/-- TCP header fields the handler reads (`_tcp.dst_port`). -/
structure TcpHeader where
  src_port : Nat
  dst_port : Nat
deriving DecidableEq, Repr

/-- One protocol layer of a parsed packet, mirroring the entries of
Ryu's `pkt.protocols` list. -/
inductive Proto where
  | eth (h : EthHeader)
  | arp (h : ArpHeader)
  | ip4 (h : Ipv4Header)
  | tcp (h : TcpHeader)
  | raw (payload : List Nat)
deriving DecidableEq, Repr

/-- A parsed packet: the list of its protocol layers (`pkt.protocols`). -/
abbrev Packet := List Proto

/-- First ethernet layer: `pkt.get_protocols(ethernet.ethernet)[0]`. -/
def getEth : Packet → Option EthHeader
  | [] => none
  | .eth h :: _ => some h
  | _ :: rest => getEth rest

/-- First ARP layer, if any: `pkt.get_protocol(arp.arp)`. -/
def getArp : Packet → Option ArpHeader
  | [] => none
  | .arp h :: _ => some h
  | _ :: rest => getArp rest

/-- First IPv4 layer, if any: `pkt.get_protocol(ipv4.ipv4)`. -/
def getIp4 : Packet → Option Ipv4Header
  | [] => none
  | .ip4 h :: _ => some h
  | _ :: rest => getIp4 rest

/-- First TCP layer, if any: `pkt.get_protocol(tcp.tcp)`. -/
def getTcp : Packet → Option TcpHeader
  | [] => none
  | .tcp h :: _ => some h
  | _ :: rest => getTcp rest

/-- Output destination of an `OFPActionOutput`: a physical port number,
`OFPP_FLOOD`, or `OFPP_CONTROLLER`. -/
inductive OutPort where
  | phys (p : Nat)
  | flood
  | controller
deriving DecidableEq, Repr

/-- OpenFlow actions the controller emits.  `output p noBuffer` models
`OFPActionOutput(p)`, with `noBuffer = true` when `OFPCML_NO_BUFFER` is
passed; the set-field actions model `OFPActionSetField(ipv4_dst=...)` and
`OFPActionSetField(eth_dst=...)`. -/
inductive Action where
  | output (p : OutPort) (noBuffer : Bool)
  | setFieldIpv4Dst (ip : String)
  | setFieldEthDst (mac : String)
deriving DecidableEq, Repr

/-- An `OFPMatch`: unset fields are wildcards. -/
structure OFPMatch where
  in_port : Option Nat := none
  eth_type : Option Nat := none
  ip_proto : Option Nat := none
  ipv4_src : Option String := none
  ipv4_dst : Option String := none
  tcp_dst : Option Nat := none
  eth_dst : Option String := none
deriving DecidableEq, Repr

/-- Southbound messages the controller sends, in order. -/
inductive OutMsg where
  | flowMod (priority : Nat) (mtch : OFPMatch) (actions : List Action)
      (idle_timeout : Nat) (hard_timeout : Nat)
  | packetOut (in_port : Nat) (actions : List Action) (data : Packet)
deriving DecidableEq, Repr

/-- Ethertype constant for ARP (0x0806). -/
def OFP_ETH_TYPE_ARP : Nat := 2054

/-- Ethertype constant for IPv4 (0x0800). -/
def OFP_ETH_TYPE_IP : Nat := 2048

/-- The static affinity table `client_to_edge_server_map` of
`CDNLoadBalancer.__init__`. -/
def client_to_edge_server_map : String → Option String := fun ip =>
  if ip = "10.0.1.100" then some "10.0.1.1"
  else if ip = "10.0.2.100" then some "10.0.2.1"
  else none

/-- The canonical central server address `self.central_server_ip`. -/
def central_server_ip : String := "10.0.0.1"

/-- `add_flow`: builds the flow-mod message with the given priority,
match, ordered action list and timeouts (both default 0). -/
def add_flow (priority : Nat) (mtch : OFPMatch) (actions : List Action)
    (idle_timeout : Nat := 0) (hard_timeout : Nat := 0) : OutMsg :=
  .flowMod priority mtch actions idle_timeout hard_timeout

/-- `switch_features_handler`: the baseline rules installed on switch
attach, in the order they are sent. -/
def switch_features_handler : List OutMsg :=
  [add_flow 0 {} [.output .controller true],
   add_flow 100 { eth_type := some OFP_ETH_TYPE_ARP } [.output .flood false]]

/-- Controller state: `self.mac_to_port` (dpid → mac → port) and the
global `self.ip_to_mac`. -/
structure CState where
  mac_to_port : Nat → String → Option Nat
  ip_to_mac : String → Option String

/-- A packet-in event: switch id, ingress port, and the parsed frame. -/
structure PacketInMsg where
  dpid : Nat
  in_port : Nat
  data : Packet

/-- MAC learning (line 79): `self.mac_to_port[dpid][src_mac] = in_port`,
an unconditional upsert. -/
def learn_mac_step (t : Nat → String → Option Nat) (dpid : Nat) (mac : String)
    (port : Nat) : Nat → String → Option Nat :=
  fun d m => if d = dpid ∧ m = mac then some port else t d m

/-- IP learning (line 85): `self.ip_to_mac[_arp.src_ip] = _arp.src_mac`. -/
def learn_ip_step (t : String → Option String) (ip : String) (mac : String) :
    String → Option String :=
  fun i => if i = ip then some mac else t i

/-- Python truthiness of `target_server_mac` at line 125:
`if not target_server_mac:` is taken for `None` and for the empty string. -/
def pyFalsyStr : Option String → Bool
  | none => true
  | some s => s = ""

/-- Python truthiness of `out_port` at line 132: `if not out_port:` is
taken for `None` and for port number 0. -/
def pyFalsyPort : Option Nat → Bool
  | none => true
  | some p => p = 0

/-- The redirection decision of lines 115-121: the target defaults to the
original destination; when the destination is the central server and the
source has a static affinity entry, the target is that edge address. -/
def target_of (src_ip dst_ip : String) : String :=
  if dst_ip = central_server_ip then
    match client_to_edge_server_map src_ip with
    | some edge => edge
    | none => dst_ip
  else dst_ip

/-- Flow priority of the TCP-port-80 redirect rule (line 179). -/
def HTTP_FLOW_PRIORITY : Nat := 10

/-- Flow priority of the learning-switch rule (line 200). -/
def LEARNING_FLOW_PRIORITY : Nat := 1

/-- Idle timeout of the redirect rule (line 179). -/
def HTTP_IDLE_TIMEOUT : Nat := 300

/-- Hard timeout of the redirect rule (line 179). -/
def HTTP_HARD_TIMEOUT : Nat := 600

/-- The packet rewrite of lines 141-158: a fresh ethernet header with the
target MAC as destination, the IPv4 header with only `dst` replaced, and
`pkt.protocols[2:]` appended unchanged. -/
def rewrite_packet (eth : EthHeader) (ip4h : Ipv4Header)
    (new_dst_ip new_dst_mac : String) (data : Packet) : Packet :=
  Proto.eth { dst := new_dst_mac, src := eth.src, ethertype := eth.ethertype } ::
  Proto.ip4 { ip4h with dst := new_dst_ip } ::
  data.drop 2

/-- The TCP destination-port-80 branch (lines 109-189), entered after MAC
learning with the updated state `s1`. -/
def http_branch (s1 : CState) (dpid in_port : Nat) (eth : EthHeader)
    (ip4h : Ipv4Header) (tcph : TcpHeader) (data : Packet) :
    CState × List OutMsg :=
  let src_ip := ip4h.src
  let dst_ip := ip4h.dst
  let target_server_ip := target_of src_ip dst_ip
  let target_server_mac := s1.ip_to_mac target_server_ip
  if pyFalsyStr target_server_mac then
    (s1, [.packetOut in_port [.output .flood false] data])
  else
    let m := target_server_mac.getD ""
    let out_port := s1.mac_to_port dpid m
    if pyFalsyPort out_port then
      (s1, [.packetOut in_port [.output .flood false] data])
    else
      let p := out_port.getD 0
      let data_to_send :=
        if target_server_ip ≠ dst_ip then
          rewrite_packet eth ip4h target_server_ip m data
        else data
      let actions := [Action.setFieldIpv4Dst target_server_ip,
                      Action.setFieldEthDst m,
                      Action.output (.phys p) false]
      let fmatch : OFPMatch :=
        { in_port := some in_port, eth_type := some OFP_ETH_TYPE_IP,
          ip_proto := some 6, ipv4_src := some src_ip,
          ipv4_dst := some dst_ip, tcp_dst := some tcph.dst_port }
      (s1, [add_flow HTTP_FLOW_PRIORITY fmatch actions
              HTTP_IDLE_TIMEOUT HTTP_HARD_TIMEOUT,
            .packetOut in_port actions data_to_send])

/-- The generic learning-switch branch (lines 191-209), entered after MAC
learning with the updated state `s1`. -/
def generic_branch (s1 : CState) (dpid in_port : Nat) (dst_mac : String)
    (data : Packet) : CState × List OutMsg :=
  match s1.mac_to_port dpid dst_mac with
  | some p =>
      (s1, [add_flow LEARNING_FLOW_PRIORITY
              { in_port := some in_port, eth_dst := some dst_mac }
              [.output (.phys p) false],
            .packetOut in_port [.output (.phys p) false] data])
  | none =>
      (s1, [.packetOut in_port [.output .flood false] data])

/-- `_packet_in_handler`: learn the source MAC, then dispatch on ARP /
TCP-port-80 / everything else.  Returns `none` when the frame has no
ethernet layer (the Python code would raise on `get_protocols(...)[0]`). -/
def packet_in_handler (s : CState) (msg : PacketInMsg) :
    Option (CState × List OutMsg) :=
  match getEth msg.data with
  | none => none
  | some eth =>
    let dpid := msg.dpid
    let in_port := msg.in_port
    let s1 : CState :=
      { s with mac_to_port := learn_mac_step s.mac_to_port dpid eth.src in_port }
    match getArp msg.data with
    | some a =>
      let s2 : CState :=
        { s1 with ip_to_mac := learn_ip_step s1.ip_to_mac a.src_ip a.src_mac }
      let out_port : OutPort :=
        match s2.mac_to_port dpid eth.dst with
        | some p => .phys p
        | none => .flood
      some (s2, [.packetOut in_port [.output out_port false] msg.data])
    | none =>
      match getIp4 msg.data, getTcp msg.data with
      | some ip4h, some tcph =>
        if tcph.dst_port = 80 then
          some (http_branch s1 dpid in_port eth ip4h tcph msg.data)
        else
          some (generic_branch s1 dpid in_port eth.dst msg.data)
      | _, _ => some (generic_branch s1 dpid in_port eth.dst msg.data)

/-- One MAC-learning observation `(dpid, src_mac, in_port)`. -/
structure Obs where
  dpid : Nat
  mac : String
  port : Nat

/-- Processing one observation through the learning upsert of line 79. -/
def apply_obs (t : Nat → String → Option Nat) (o : Obs) :
    Nat → String → Option Nat :=
  learn_mac_step t o.dpid o.mac o.port

/-- The port of the latest observation in `obs` concerning `(d, m)`,
if any (later list elements are later observations). -/
def latest_port : List Obs → Nat → String → Option Nat
  | [], _, _ => none
  | o :: rest, d, m =>
    match latest_port rest d m with
    | some p => some p
    | none => if d = o.dpid ∧ m = o.mac then some o.port else none

/-- MAC of the edge server `10.0.1.1` in the concrete test scenario. -/
def macEdge : String := "00:00:00:00:00:02"

/-- MAC of the client `10.0.1.100` in the concrete test scenario. -/
def macClient : String := "00:00:00:00:00:04"

/-- MAC of the central server `10.0.0.1` in the concrete test scenario. -/
def macCentral : String := "00:00:00:00:00:01"

/-- Test state: `10.0.1.1`'s MAC is learned globally and bound to
port 3 on switch 1. -/
def tState : CState :=
  { mac_to_port := fun d m => if d = 1 ∧ m = macEdge then some 3 else none,
    ip_to_mac := fun i => if i = "10.0.1.1" then some macEdge else none }

/-- Test ethernet header: client to central server. -/
def tEth : EthHeader :=
  { dst := macCentral, src := macClient, ethertype := OFP_ETH_TYPE_IP }

/-- Test IPv4 header: `10.0.1.100 → 10.0.0.1`, protocol TCP. -/
def tIp4 : Ipv4Header :=
  { version := 4, header_length := 5, tos := 0, total_length := 40,
    identification := 7, flags := 2, offset := 0, ttl := 64, proto := 6,
    csum := 0, src := "10.0.1.100", dst := "10.0.0.1" }

/-- Test TCP header with destination port 80. -/
def tTcp : TcpHeader := { src_port := 43210, dst_port := 80 }

/-- Test HTTP packet: ethernet, IPv4, TCP, payload. -/
def tPkt : Packet := [.eth tEth, .ip4 tIp4, .tcp tTcp, .raw [104, 105]]

/-- Test packet-in: the HTTP packet arriving on switch 1, port 2. -/
def tMsg : PacketInMsg := { dpid := 1, in_port := 2, data := tPkt }

/-- Empty controller state (no MAC or IP learned). -/
def tEmptyState : CState :=
  { mac_to_port := fun _ _ => none, ip_to_mac := fun _ => none }

/-- Test non-IP packet (ethernet only) for the learning-switch branch. -/
def tGenPkt : Packet :=
  [.eth { dst := macEdge, src := macClient, ethertype := OFP_ETH_TYPE_IP }]

/-- Test packet-in for the learning-switch branch on switch 1, port 2. -/
def tGenMsg : PacketInMsg := { dpid := 1, in_port := 2, data := tGenPkt }

/-- Test ARP header announcing `10.0.2.1 ↔ 00:00:00:00:00:03`. -/
def tArp : ArpHeader :=
  { src_mac := "00:00:00:00:00:03", src_ip := "10.0.2.1",
    dst_mac := "ff:ff:ff:ff:ff:ff", dst_ip := "10.0.2.100" }

/-- Test ethernet header of the ARP packet. -/
def tArpEth : EthHeader :=
  { dst := "ff:ff:ff:ff:ff:ff", src := "00:00:00:00:00:03",
    ethertype := OFP_ETH_TYPE_ARP }

/-- Test ARP packet carrying `tArp`. -/
def tArpPkt : Packet := [.eth tArpEth, .arp tArp]

/-- Test packet-in carrying the ARP packet on switch 1, port 5. -/
def tArpMsg : PacketInMsg := { dpid := 1, in_port := 5, data := tArpPkt }

/-- State after processing `tArpMsg` from the empty state. -/
def tArpState : CState :=
  { mac_to_port :=
      learn_mac_step tEmptyState.mac_to_port 1 "00:00:00:00:00:03" 5,
    ip_to_mac :=
      learn_ip_step tEmptyState.ip_to_mac "10.0.2.1" "00:00:00:00:00:03" }

/-- Test ethernet header of the follow-up HTTP packet towards `10.0.2.1`. -/
def tEthB : EthHeader :=
  { dst := "00:00:00:00:00:03", src := "00:00:00:00:00:05",
    ethertype := OFP_ETH_TYPE_IP }

/-- Test IPv4 header `10.0.2.100 → 10.0.2.1`, protocol TCP. -/
def tIp4b : Ipv4Header :=
  { version := 4, header_length := 5, tos := 0, total_length := 40,
    identification := 9, flags := 2, offset := 0, ttl := 64, proto := 6,
    csum := 0, src := "10.0.2.100", dst := "10.0.2.1" }

/-- Test follow-up HTTP packet addressed directly to `10.0.2.1`. -/
def tPktB : Packet := [.eth tEthB, .ip4 tIp4b, .tcp tTcp]

/-- Test packet-in for the follow-up HTTP packet on switch 1, port 7. -/
def tMsgB : PacketInMsg := { dpid := 1, in_port := 7, data := tPktB }

/-- Characterization of `_packet_in_handler` on a TCP-port-80 packet whose
redirection target resolves to a usable MAC and egress port: the state
gains only the MAC-learning upsert, and the messages are the redirect
flow-mod followed by the packet-out (rewritten iff the target differs
from the original destination). -/
theorem handler_http_resolved
    (s : CState) (msg : PacketInMsg) (e : EthHeader) (h4 : Ipv4Header)
    (t : TcpHeader) (m : String) (p : Nat)
    (heth : getEth msg.data = some e)
    (hnoarp : getArp msg.data = none)
    (hip4 : getIp4 msg.data = some h4)
    (htcp : getTcp msg.data = some t)
    (h80 : t.dst_port = 80)
    (hm : s.ip_to_mac (target_of h4.src h4.dst) = some m)
    (hmne : m ≠ "")
    (hp : learn_mac_step s.mac_to_port msg.dpid e.src msg.in_port msg.dpid m = some p)
    (hpne : p ≠ 0) :
    packet_in_handler s msg = some
      ({ s with mac_to_port := learn_mac_step s.mac_to_port msg.dpid e.src msg.in_port },
       [ OutMsg.flowMod HTTP_FLOW_PRIORITY
           { in_port := some msg.in_port, eth_type := some OFP_ETH_TYPE_IP,
             ip_proto := some 6, ipv4_src := some h4.src,
             ipv4_dst := some h4.dst, tcp_dst := some t.dst_port }
           [ .setFieldIpv4Dst (target_of h4.src h4.dst), .setFieldEthDst m,
             .output (.phys p) false ]
           HTTP_IDLE_TIMEOUT HTTP_HARD_TIMEOUT,
         OutMsg.packetOut msg.in_port
           [ .setFieldIpv4Dst (target_of h4.src h4.dst), .setFieldEthDst m,
             .output (.phys p) false ]
           (if target_of h4.src h4.dst ≠ h4.dst then
              rewrite_packet e h4 (target_of h4.src h4.dst) m msg.data
            else msg.data) ]) := by
  simp only [packet_in_handler, heth, hnoarp, hip4, htcp, h80, if_pos,
    http_branch, add_flow]
  simp only [hm, pyFalsyStr, decide_eq_true_eq, hmne, if_false,
    Option.getD_some, hp, pyFalsyPort, hpne]

/-- The HTTP branch never changes the controller state beyond what it was
entered with. -/
theorem http_branch_fst (s1 : CState) (dpid in_port : Nat) (e : EthHeader)
    (h4 : Ipv4Header) (t : TcpHeader) (data : Packet) :
    (http_branch s1 dpid in_port e h4 t data).1 = s1 := by
  unfold http_branch
  dsimp only
  split
  · rfl
  · split
    · rfl
    · rfl

/-- The generic branch never changes the controller state beyond what it
was entered with. -/
theorem generic_branch_fst (s1 : CState) (dpid in_port : Nat)
    (dst_mac : String) (data : Packet) :
    (generic_branch s1 dpid in_port dst_mac data).1 = s1 := by
  unfold generic_branch
  split <;> rfl

/-- Characterization of `_packet_in_handler` on an ARP packet: both tables
are updated and the packet is sent towards the learned port for its
destination MAC, or flooded. -/
theorem handler_arp (s : CState) (msg : PacketInMsg) (e : EthHeader)
    (a : ArpHeader)
    (heth : getEth msg.data = some e)
    (harp : getArp msg.data = some a) :
    packet_in_handler s msg = some
      ({ mac_to_port := learn_mac_step s.mac_to_port msg.dpid e.src msg.in_port,
         ip_to_mac := learn_ip_step s.ip_to_mac a.src_ip a.src_mac },
       [ OutMsg.packetOut msg.in_port
           [.output
              (match learn_mac_step s.mac_to_port msg.dpid e.src msg.in_port
                       msg.dpid e.dst with
               | some p => .phys p
               | none => .flood) false]
           msg.data ]) := by
  simp only [packet_in_handler, heth, harp]

/-- Characterization of `_packet_in_handler` on a packet that is neither
ARP nor TCP-port-80: the generic learning-switch branch runs on the
post-learning state. -/
theorem handler_generic (s : CState) (msg : PacketInMsg) (e : EthHeader)
    (heth : getEth msg.data = some e)
    (hnoarp : getArp msg.data = none)
    (hnothttp : getIp4 msg.data = none ∨ getTcp msg.data = none ∨
                ∀ t, getTcp msg.data = some t → t.dst_port ≠ 80) :
    packet_in_handler s msg = some
      ({ s with mac_to_port := learn_mac_step s.mac_to_port msg.dpid e.src msg.in_port },
       match learn_mac_step s.mac_to_port msg.dpid e.src msg.in_port
               msg.dpid e.dst with
       | some p =>
           [ OutMsg.flowMod LEARNING_FLOW_PRIORITY
               { in_port := some msg.in_port, eth_dst := some e.dst }
               [.output (.phys p) false] 0 0,
             OutMsg.packetOut msg.in_port [.output (.phys p) false] msg.data ]
       | none =>
           [ OutMsg.packetOut msg.in_port [.output .flood false] msg.data ]) := by
  have hgen : ∀ s1 : CState,
      generic_branch s1 msg.dpid msg.in_port e.dst msg.data =
        (s1, match s1.mac_to_port msg.dpid e.dst with
             | some p =>
                 [ OutMsg.flowMod LEARNING_FLOW_PRIORITY
                     { in_port := some msg.in_port, eth_dst := some e.dst }
                     [.output (.phys p) false] 0 0,
                   OutMsg.packetOut msg.in_port [.output (.phys p) false] msg.data ]
             | none =>
                 [ OutMsg.packetOut msg.in_port [.output .flood false] msg.data ]) := by
    intro s1
    unfold generic_branch add_flow
    split <;> simp_all
  cases hip : getIp4 msg.data with
  | none =>
      cases htc : getTcp msg.data with
      | none => simp only [packet_in_handler, heth, hnoarp, hip, htc, hgen]
      | some t => simp only [packet_in_handler, heth, hnoarp, hip, htc, hgen]
  | some h4 =>
      cases htc : getTcp msg.data with
      | none => simp only [packet_in_handler, heth, hnoarp, hip, htc, hgen]
      | some t =>
          have hne : t.dst_port ≠ 80 := by
            rcases hnothttp with h | h | h
            · rw [hip] at h; exact absurd h (by simp)
            · rw [htc] at h; exact absurd h (by simp)
            · exact h t htc
          simp only [packet_in_handler, heth, hnoarp, hip, htc, hne, if_false, hgen]

/-- The MAC-learning upsert is idempotent. -/
theorem learn_mac_step_idem (t : Nat → String → Option Nat) (d : Nat)
    (m : String) (p : Nat) :
    learn_mac_step (learn_mac_step t d m p) d m p = learn_mac_step t d m p := by
  funext d' m'
  by_cases h : d' = d ∧ m' = m <;> simp [learn_mac_step, h]

/-- Iterating the MAC-learning upsert `k + 1` times equals applying it
once. -/
theorem learn_mac_step_iterate (t : Nat → String → Option Nat) (d : Nat)
    (m : String) (p : Nat) (k : Nat) :
    (fun x => learn_mac_step x d m p)^[k + 1] t = learn_mac_step t d m p := by
  induction k with
  | zero => rfl
  | succ j ih =>
      rw [Function.iterate_succ_apply', ih]
      exact learn_mac_step_idem t d m p

/-- After any sequence of observations, a `(dpid, MAC)` pair resolves to
the port of the latest observation concerning it, or to its prior binding
if none occurred. -/
theorem foldl_apply_obs_latest (obs : List Obs) :
    ∀ (t : Nat → String → Option Nat) (d : Nat) (m : String),
      (obs.foldl apply_obs t) d m =
        match latest_port obs d m with
        | some p => some p
        | none => t d m := by
  induction obs with
  | nil => intro t d m; rfl
  | cons o rest ih =>
      intro t d m
      simp only [List.foldl_cons, ih, latest_port]
      cases hlp : latest_port rest d m with
      | some p => rfl
      | none =>
          by_cases h : d = o.dpid ∧ m = o.mac <;>
            simp [apply_obs, learn_mac_step, h]

/-- Claim C6: on every switch attach, the controller installs exactly two
baseline rules, in order: first a priority-0 match-everything rule sending
the packet to the controller without buffering, then a priority-100 rule
matching ARP traffic that floods; no other rule is installed at attach
time. -/
theorem switch_attach_baseline_rules :
    switch_features_handler =
      [OutMsg.flowMod 0 {} [Action.output OutPort.controller true] 0 0,
       OutMsg.flowMod 100 { eth_type := some OFP_ETH_TYPE_ARP }
         [Action.output OutPort.flood false] 0 0] := rfl

/-- A pair's first component, read off an equation with a literal pair. -/
theorem fst_eq_of_pair_eq {α β : Type _} {x : α × β} {a : α} {b : β}
    (h : x = (a, b)) : a = x.1 := by rw [h]

/-- Claim C10: the global IP-to-MAC table is mutated only by the ARP
branch: processing any packet-in without an ARP payload leaves
`ip_to_mac` unchanged. -/
theorem non_arp_preserves_ip_to_mac (s : CState) (msg : PacketInMsg)
    (s' : CState) (outs : List OutMsg)
    (hnoarp : getArp msg.data = none)
    (hrun : packet_in_handler s msg = some (s', outs)) :
    s'.ip_to_mac = s.ip_to_mac := by
  unfold packet_in_handler at hrun
  cases heth : getEth msg.data with
  | none => rw [heth] at hrun; exact absurd hrun (by simp)
  | some e =>
      rw [heth] at hrun
      simp only [hnoarp] at hrun
      cases hip : getIp4 msg.data with
      | none =>
          cases htc : getTcp msg.data with
          | none =>
              simp only [hip, htc, Option.some.injEq] at hrun
              have h := fst_eq_of_pair_eq hrun
              rw [generic_branch_fst] at h
              rw [h]
          | some t =>
              simp only [hip, htc, Option.some.injEq] at hrun
              have h := fst_eq_of_pair_eq hrun
              rw [generic_branch_fst] at h
              rw [h]
      | some h4 =>
          cases htc : getTcp msg.data with
          | none =>
              simp only [hip, htc, Option.some.injEq] at hrun
              have h := fst_eq_of_pair_eq hrun
              rw [generic_branch_fst] at h
              rw [h]
          | some t =>
              by_cases h80 : t.dst_port = 80
              · simp only [hip, htc, h80, eq_self_iff_true, if_true,
                  Option.some.injEq] at hrun
                have h := fst_eq_of_pair_eq hrun
                rw [http_branch_fst] at h
                rw [h]
              · simp only [hip, htc, h80, if_false,
                  Option.some.injEq] at hrun
                have h := fst_eq_of_pair_eq hrun
                rw [generic_branch_fst] at h
                rw [h]

/-- Claim C1: a TCP-port-80 packet from `10.0.1.100` to the canonical
address `10.0.0.1`, with affinity target `10.0.1.1` whose MAC `m` is
learned and bound to port 3, yields a flow matching
`(in_port, TCP, src 10.0.1.100, dst 10.0.0.1, tcp_dst 80)` with actions
`[set dst IP 10.0.1.1, set dst MAC m, output 3]`, and a packet-out on
port 3 whose L2/L3 destination fields are already rewritten to `m` and
`10.0.1.1`. -/
theorem http_redirect_scenario (s : CState) (msg : PacketInMsg)
    (e : EthHeader) (h4 : Ipv4Header) (t : TcpHeader) (rest : Packet)
    (m : String)
    (hdata : msg.data = Proto.eth e :: Proto.ip4 h4 :: rest)
    (hnoarp : getArp msg.data = none)
    (htcp : getTcp msg.data = some t)
    (hsrc : h4.src = "10.0.1.100")
    (hdst : h4.dst = "10.0.0.1")
    (h80 : t.dst_port = 80)
    (hm : s.ip_to_mac "10.0.1.1" = some m)
    (hmne : m ≠ "")
    (hsrcmac : e.src ≠ m)
    (hport : s.mac_to_port msg.dpid m = some 3) :
    packet_in_handler s msg = some
      ({ s with mac_to_port := learn_mac_step s.mac_to_port msg.dpid e.src msg.in_port },
       [ OutMsg.flowMod HTTP_FLOW_PRIORITY
           { in_port := some msg.in_port, eth_type := some OFP_ETH_TYPE_IP,
             ip_proto := some 6, ipv4_src := some "10.0.1.100",
             ipv4_dst := some "10.0.0.1", tcp_dst := some 80 }
           [ .setFieldIpv4Dst "10.0.1.1", .setFieldEthDst m,
             .output (.phys 3) false ]
           HTTP_IDLE_TIMEOUT HTTP_HARD_TIMEOUT,
         OutMsg.packetOut msg.in_port
           [ .setFieldIpv4Dst "10.0.1.1", .setFieldEthDst m,
             .output (.phys 3) false ]
           (Proto.eth { dst := m, src := e.src, ethertype := e.ethertype } ::
            Proto.ip4 { h4 with dst := "10.0.1.1" } :: rest) ]) := by
  have heth : getEth msg.data = some e := by rw [hdata]; rfl
  have hip4 : getIp4 msg.data = some h4 := by rw [hdata]; rfl
  have htgt : target_of h4.src h4.dst = "10.0.1.1" := by
    rw [hsrc, hdst]; rfl
  have hm' : s.ip_to_mac (target_of h4.src h4.dst) = some m := by
    rw [htgt]; exact hm
  have hp : learn_mac_step s.mac_to_port msg.dpid e.src msg.in_port
      msg.dpid m = some 3 := by
    unfold learn_mac_step
    rw [if_neg]
    · exact hport
    · intro hcon
      exact hsrcmac hcon.2.symm
  have h := handler_http_resolved s msg e h4 t m 3 heth hnoarp hip4 htcp h80
    hm' hmne hp (by decide)
  rw [h, htgt, ← hsrc, ← hdst, h80]
  have hne : ("10.0.1.1" : String) ≠ h4.dst := by rw [hdst]; decide
  rw [if_pos hne, hdata]
  rfl

/-- Claim C3: when the redirection target's MAC is unknown (Python-falsy)
or its MAC has no usable learned port on this switch, the handler installs
no flow and floods the inbound packet data byte-identically. -/
theorem http_unresolved_floods_unmodified (s : CState) (msg : PacketInMsg)
    (e : EthHeader) (h4 : Ipv4Header) (t : TcpHeader)
    (heth : getEth msg.data = some e)
    (hnoarp : getArp msg.data = none)
    (hip4 : getIp4 msg.data = some h4)
    (htcp : getTcp msg.data = some t)
    (h80 : t.dst_port = 80)
    (hunres : pyFalsyStr (s.ip_to_mac (target_of h4.src h4.dst)) = true ∨
      pyFalsyPort (learn_mac_step s.mac_to_port msg.dpid e.src msg.in_port
        msg.dpid ((s.ip_to_mac (target_of h4.src h4.dst)).getD "")) = true) :
    packet_in_handler s msg = some
      ({ s with mac_to_port := learn_mac_step s.mac_to_port msg.dpid e.src msg.in_port },
       [ OutMsg.packetOut msg.in_port [.output .flood false] msg.data ]) := by
  simp only [packet_in_handler, heth, hnoarp, hip4, htcp, h80,
    eq_self_iff_true, if_true, http_branch]
  rcases hunres with h | h
  · simp only [h, if_true]
  · by_cases hmac : pyFalsyStr (s.ip_to_mac (target_of h4.src h4.dst)) = true
    · simp only [hmac, if_true]
    · simp only [hmac, if_false, Bool.not_eq_true] at *
      simp only [hmac, h, if_true, Bool.false_eq_true, if_false]

/-- Claim C4: every flow installed for a resolved TCP-port-80 packet
matches `(in_port, IP, TCP, src IP, original dst IP, tcp_dst 80)`, carries
the ordered actions `[set dst IP, set dst MAC, output]`, has priority
strictly above the learning-switch priority, and nonzero idle and hard
timeouts. -/
theorem http_flow_install_shape (s : CState) (msg : PacketInMsg)
    (e : EthHeader) (h4 : Ipv4Header) (t : TcpHeader) (m : String) (p : Nat)
    (heth : getEth msg.data = some e)
    (hnoarp : getArp msg.data = none)
    (hip4 : getIp4 msg.data = some h4)
    (htcp : getTcp msg.data = some t)
    (h80 : t.dst_port = 80)
    (hm : s.ip_to_mac (target_of h4.src h4.dst) = some m)
    (hmne : m ≠ "")
    (hp : learn_mac_step s.mac_to_port msg.dpid e.src msg.in_port msg.dpid m = some p)
    (hpne : p ≠ 0) :
    packet_in_handler s msg = some
      ({ s with mac_to_port := learn_mac_step s.mac_to_port msg.dpid e.src msg.in_port },
       [ OutMsg.flowMod HTTP_FLOW_PRIORITY
           { in_port := some msg.in_port, eth_type := some OFP_ETH_TYPE_IP,
             ip_proto := some 6, ipv4_src := some h4.src,
             ipv4_dst := some h4.dst, tcp_dst := some 80 }
           [ .setFieldIpv4Dst (target_of h4.src h4.dst), .setFieldEthDst m,
             .output (.phys p) false ]
           HTTP_IDLE_TIMEOUT HTTP_HARD_TIMEOUT,
         OutMsg.packetOut msg.in_port
           [ .setFieldIpv4Dst (target_of h4.src h4.dst), .setFieldEthDst m,
             .output (.phys p) false ]
           (if target_of h4.src h4.dst ≠ h4.dst then
              rewrite_packet e h4 (target_of h4.src h4.dst) m msg.data
            else msg.data) ]) ∧
    LEARNING_FLOW_PRIORITY < HTTP_FLOW_PRIORITY ∧
    HTTP_IDLE_TIMEOUT ≠ 0 ∧ HTTP_HARD_TIMEOUT ≠ 0 := by
  refine ⟨?_, by decide, by decide, by decide⟩
  have h := handler_http_resolved s msg e h4 t m p heth hnoarp hip4 htcp h80
    hm hmne hp hpne
  rw [h, h80]

/-- Claim C5: for a redirected TCP-port-80 packet, the forwarded packet
differs from the inbound one only in the Ethernet destination (set to the
target's MAC) and the IPv4 destination (set to the target's IP); every
other field and all following layers are carried through unchanged. -/
theorem redirect_rewrites_only_dst_fields (s : CState) (msg : PacketInMsg)
    (e : EthHeader) (h4 : Ipv4Header) (t : TcpHeader) (rest : Packet)
    (m : String) (p : Nat)
    (hdata : msg.data = Proto.eth e :: Proto.ip4 h4 :: rest)
    (hnoarp : getArp msg.data = none)
    (htcp : getTcp msg.data = some t)
    (h80 : t.dst_port = 80)
    (hm : s.ip_to_mac (target_of h4.src h4.dst) = some m)
    (hmne : m ≠ "")
    (hp : learn_mac_step s.mac_to_port msg.dpid e.src msg.in_port msg.dpid m = some p)
    (hpne : p ≠ 0)
    (hredir : target_of h4.src h4.dst ≠ h4.dst) :
    packet_in_handler s msg = some
      ({ s with mac_to_port := learn_mac_step s.mac_to_port msg.dpid e.src msg.in_port },
       [ OutMsg.flowMod HTTP_FLOW_PRIORITY
           { in_port := some msg.in_port, eth_type := some OFP_ETH_TYPE_IP,
             ip_proto := some 6, ipv4_src := some h4.src,
             ipv4_dst := some h4.dst, tcp_dst := some t.dst_port }
           [ .setFieldIpv4Dst (target_of h4.src h4.dst), .setFieldEthDst m,
             .output (.phys p) false ]
           HTTP_IDLE_TIMEOUT HTTP_HARD_TIMEOUT,
         OutMsg.packetOut msg.in_port
           [ .setFieldIpv4Dst (target_of h4.src h4.dst), .setFieldEthDst m,
             .output (.phys p) false ]
           (Proto.eth { e with dst := m } ::
            Proto.ip4 { h4 with dst := target_of h4.src h4.dst } :: rest) ]) := by
  have heth : getEth msg.data = some e := by rw [hdata]; rfl
  have hip4 : getIp4 msg.data = some h4 := by rw [hdata]; rfl
  have h := handler_http_resolved s msg e h4 t m p heth hnoarp hip4 htcp h80
    hm hmne hp hpne
  rw [h, if_pos hredir, hdata]
  rfl

/-- Claim C7: a packet that is neither ARP nor TCP-port-80 gets
learning-switch treatment: with the destination MAC known, a priority-1
flow matching exactly `(in_port, eth_dst)` with the single output action
and zero timeouts is installed and the packet is forwarded out that port;
with it unknown, the packet is flooded and no flow is installed. -/
theorem learning_switch_branch (s : CState) (msg : PacketInMsg)
    (e : EthHeader)
    (heth : getEth msg.data = some e)
    (hnoarp : getArp msg.data = none)
    (hnothttp : getIp4 msg.data = none ∨ getTcp msg.data = none ∨
                ∀ t, getTcp msg.data = some t → t.dst_port ≠ 80) :
    (∀ p, learn_mac_step s.mac_to_port msg.dpid e.src msg.in_port
            msg.dpid e.dst = some p →
       packet_in_handler s msg = some
         ({ s with mac_to_port := learn_mac_step s.mac_to_port msg.dpid e.src msg.in_port },
          [ OutMsg.flowMod LEARNING_FLOW_PRIORITY
              { in_port := some msg.in_port, eth_dst := some e.dst }
              [.output (.phys p) false] 0 0,
            OutMsg.packetOut msg.in_port [.output (.phys p) false] msg.data ])) ∧
    (learn_mac_step s.mac_to_port msg.dpid e.src msg.in_port
        msg.dpid e.dst = none →
       packet_in_handler s msg = some
         ({ s with mac_to_port := learn_mac_step s.mac_to_port msg.dpid e.src msg.in_port },
          [ OutMsg.packetOut msg.in_port [.output .flood false] msg.data ])) := by
  have h := handler_generic s msg e heth hnoarp hnothttp
  constructor
  · intro p hp
    rw [h, hp]
  · intro hp
    rw [h, hp]

/-- Claim C2 (counterexample): for a source IP with no affinity entry
aimed at the canonical central address, the redirection decision returns
the canonical address itself, which is not an edge server address — there
is no least-loaded scan of edge servers. -/
theorem no_least_loaded_counterexample :
    client_to_edge_server_map "10.0.3.100" = none ∧
    target_of "10.0.3.100" central_server_ip = central_server_ip ∧
    central_server_ip ≠ "10.0.1.1" ∧ central_server_ip ≠ "10.0.2.1" := by
  refine ⟨?_, ?_, ?_, ?_⟩ <;> decide

/-- Claim C2 (amended): for every TCP-port-80 packet whose source IP has
no entry in the static affinity table, the redirection decision leaves the
target at the original destination address; there are no per-edge
connection counters and nothing is incremented. -/
theorem no_affinity_passthrough (src_ip dst_ip : String)
    (h : client_to_edge_server_map src_ip = none) :
    target_of src_ip dst_ip = dst_ip := by
  unfold target_of
  split
  · rw [h]
  · rfl

/-- Claim C8: MAC learning is an idempotent last-write-wins upsert:
processing the same observation N ≥ 1 times equals processing it once,
and after any sequence of observations each `(dpid, MAC)` pair maps to
the port of the latest observation concerning it (or its prior binding). -/
theorem mac_learning_idempotent_last_write :
    (∀ (t : Nat → String → Option Nat) (d : Nat) (m : String) (p n : Nat),
        1 ≤ n →
        (fun x => learn_mac_step x d m p)^[n] t = learn_mac_step t d m p) ∧
    (∀ (obs : List Obs) (t : Nat → String → Option Nat) (d : Nat) (m : String),
        (obs.foldl apply_obs t) d m =
          match latest_port obs d m with
          | some p => some p
          | none => t d m) := by
  constructor
  · intro t d m p n hn
    cases n with
    | zero => exact absurd hn (by decide)
    | succ k => exact learn_mac_step_iterate t d m p k
  · exact fun obs => foldl_apply_obs_latest obs

/-- Claim C9: processing an ARP packet-in announcing `(i, m)` updates the
global IP-to-MAC table so `i ↦ m`, and a subsequent TCP-port-80 packet
whose redirection target is `i` resolves to MAC `m` with no further ARP
traffic observed in between. -/
theorem arp_learning_enables_resolution (s : CState) (amsg : PacketInMsg)
    (ae : EthHeader) (ah : ArpHeader) (s' : CState) (aouts : List OutMsg)
    (haeth : getEth amsg.data = some ae)
    (harp : getArp amsg.data = some ah)
    (hrun : packet_in_handler s amsg = some (s', aouts)) :
    s'.ip_to_mac ah.src_ip = some ah.src_mac ∧
    ∀ (msg2 : PacketInMsg) (e2 : EthHeader) (h4 : Ipv4Header)
      (t2 : TcpHeader) (p : Nat),
      getEth msg2.data = some e2 → getArp msg2.data = none →
      getIp4 msg2.data = some h4 → getTcp msg2.data = some t2 →
      t2.dst_port = 80 →
      target_of h4.src h4.dst = ah.src_ip → ah.src_mac ≠ "" →
      learn_mac_step s'.mac_to_port msg2.dpid e2.src msg2.in_port
        msg2.dpid ah.src_mac = some p → p ≠ 0 →
      packet_in_handler s' msg2 = some
        ({ s' with mac_to_port :=
             learn_mac_step s'.mac_to_port msg2.dpid e2.src msg2.in_port },
         [ OutMsg.flowMod HTTP_FLOW_PRIORITY
             { in_port := some msg2.in_port, eth_type := some OFP_ETH_TYPE_IP,
               ip_proto := some 6, ipv4_src := some h4.src,
               ipv4_dst := some h4.dst, tcp_dst := some 80 }
             [ .setFieldIpv4Dst ah.src_ip, .setFieldEthDst ah.src_mac,
               .output (.phys p) false ]
             HTTP_IDLE_TIMEOUT HTTP_HARD_TIMEOUT,
           OutMsg.packetOut msg2.in_port
             [ .setFieldIpv4Dst ah.src_ip, .setFieldEthDst ah.src_mac,
               .output (.phys p) false ]
             (if ah.src_ip ≠ h4.dst then
                rewrite_packet e2 h4 ah.src_ip ah.src_mac msg2.data
              else msg2.data) ]) := by
  have harun := handler_arp s amsg ae ah haeth harp
  rw [harun] at hrun
  have hs' : s' =
      { mac_to_port :=
          learn_mac_step s.mac_to_port amsg.dpid ae.src amsg.in_port,
        ip_to_mac := learn_ip_step s.ip_to_mac ah.src_ip ah.src_mac } :=
    fst_eq_of_pair_eq (Option.some.inj hrun)
  constructor
  · rw [hs']
    simp [learn_ip_step]
  · intro msg2 e2 h4 t2 p he2 hna hi4 ht2 h80 htgt hmne hp hpne
    have hm : s'.ip_to_mac (target_of h4.src h4.dst) = some ah.src_mac := by
      rw [htgt, hs']
      simp [learn_ip_step]
    have h := handler_http_resolved s' msg2 e2 h4 t2 ah.src_mac p he2 hna
      hi4 ht2 h80 hm hmne hp hpne
    rw [h, htgt, h80]

/-- Witness for claim C1: the end-to-end scenario evaluated on the
concrete test packet and tables. -/
theorem http_redirect_scenario_witness :
    packet_in_handler tState tMsg = some
      ({ tState with
           mac_to_port := learn_mac_step tState.mac_to_port 1 macClient 2 },
       [ OutMsg.flowMod HTTP_FLOW_PRIORITY
           { in_port := some 2, eth_type := some OFP_ETH_TYPE_IP,
             ip_proto := some 6, ipv4_src := some "10.0.1.100",
             ipv4_dst := some "10.0.0.1", tcp_dst := some 80 }
           [ .setFieldIpv4Dst "10.0.1.1", .setFieldEthDst macEdge,
             .output (.phys 3) false ]
           HTTP_IDLE_TIMEOUT HTTP_HARD_TIMEOUT,
         OutMsg.packetOut 2
           [ .setFieldIpv4Dst "10.0.1.1", .setFieldEthDst macEdge,
             .output (.phys 3) false ]
           (Proto.eth { dst := macEdge, src := macClient,
                        ethertype := OFP_ETH_TYPE_IP } ::
            Proto.ip4 { tIp4 with dst := "10.0.1.1" } ::
            [.tcp tTcp, .raw [104, 105]]) ]) :=
  http_redirect_scenario tState tMsg tEth tIp4 tTcp [.tcp tTcp, .raw [104, 105]]
    macEdge rfl rfl rfl rfl rfl rfl (by decide) (by decide) (by decide)
    (by decide)

/-- Witness for claim C2 (amended): a client with no affinity entry keeps
the canonical address as target. -/
theorem no_affinity_passthrough_witness :
    target_of "10.0.3.100" "10.0.0.1" = "10.0.0.1" :=
  no_affinity_passthrough "10.0.3.100" "10.0.0.1" (by decide)

/-- Witness for claim C3: with nothing learned, the HTTP packet is
flooded unmodified and no flow is installed. -/
theorem http_unresolved_floods_witness :
    packet_in_handler tEmptyState tMsg = some
      ({ tEmptyState with
           mac_to_port := learn_mac_step tEmptyState.mac_to_port 1 macClient 2 },
       [ OutMsg.packetOut 2 [.output .flood false] tPkt ]) :=
  http_unresolved_floods_unmodified tEmptyState tMsg tEth tIp4 tTcp rfl rfl
    rfl rfl rfl (Or.inl rfl)

/-- Witness for claim C4: the installed flow for the concrete resolved
scenario has the claimed match, actions, priority and timeouts. -/
theorem http_flow_install_shape_witness :
    (packet_in_handler tState tMsg = some
      ({ tState with
           mac_to_port := learn_mac_step tState.mac_to_port 1 macClient 2 },
       [ OutMsg.flowMod HTTP_FLOW_PRIORITY
           { in_port := some 2, eth_type := some OFP_ETH_TYPE_IP,
             ip_proto := some 6, ipv4_src := some "10.0.1.100",
             ipv4_dst := some "10.0.0.1", tcp_dst := some 80 }
           [ .setFieldIpv4Dst (target_of tIp4.src tIp4.dst),
             .setFieldEthDst macEdge, .output (.phys 3) false ]
           HTTP_IDLE_TIMEOUT HTTP_HARD_TIMEOUT,
         OutMsg.packetOut 2
           [ .setFieldIpv4Dst (target_of tIp4.src tIp4.dst),
             .setFieldEthDst macEdge, .output (.phys 3) false ]
           (if target_of tIp4.src tIp4.dst ≠ tIp4.dst then
              rewrite_packet tEth tIp4 (target_of tIp4.src tIp4.dst)
                macEdge tMsg.data
            else tMsg.data) ]) ∧
      LEARNING_FLOW_PRIORITY < HTTP_FLOW_PRIORITY ∧
      HTTP_IDLE_TIMEOUT ≠ 0 ∧ HTTP_HARD_TIMEOUT ≠ 0) :=
  http_flow_install_shape tState tMsg tEth tIp4 tTcp macEdge 3 rfl rfl rfl
    rfl rfl (by decide) (by decide) (by decide) (by decide)

/-- Witness for claim C5: the redirected concrete packet differs from the
input only in the two destination fields. -/
theorem redirect_rewrites_only_dst_witness :
    packet_in_handler tState tMsg = some
      ({ tState with
           mac_to_port := learn_mac_step tState.mac_to_port 1 macClient 2 },
       [ OutMsg.flowMod HTTP_FLOW_PRIORITY
           { in_port := some 2, eth_type := some OFP_ETH_TYPE_IP,
             ip_proto := some 6, ipv4_src := some "10.0.1.100",
             ipv4_dst := some "10.0.0.1", tcp_dst := some 80 }
           [ .setFieldIpv4Dst (target_of tIp4.src tIp4.dst),
             .setFieldEthDst macEdge, .output (.phys 3) false ]
           HTTP_IDLE_TIMEOUT HTTP_HARD_TIMEOUT,
         OutMsg.packetOut 2
           [ .setFieldIpv4Dst (target_of tIp4.src tIp4.dst),
             .setFieldEthDst macEdge, .output (.phys 3) false ]
           (Proto.eth { tEth with dst := macEdge } ::
            Proto.ip4 { tIp4 with dst := target_of tIp4.src tIp4.dst } ::
            [.tcp tTcp, .raw [104, 105]]) ]) :=
  redirect_rewrites_only_dst_fields tState tMsg tEth tIp4 tTcp
    [.tcp tTcp, .raw [104, 105]] macEdge 3 rfl rfl rfl rfl (by decide)
    (by decide) (by decide) (by decide) (by decide)

/-- Witness for claim C7: an unknown destination MAC is flooded with no
flow installed. -/
theorem learning_switch_branch_witness :
    packet_in_handler tEmptyState tGenMsg = some
      ({ tEmptyState with
           mac_to_port := learn_mac_step tEmptyState.mac_to_port 1 macClient 2 },
       [ OutMsg.packetOut 2 [.output .flood false] tGenPkt ]) :=
  (learning_switch_branch tEmptyState tGenMsg
      { dst := macEdge, src := macClient, ethertype := OFP_ETH_TYPE_IP }
      rfl rfl (Or.inl rfl)).2 (by decide)

/-- Witness for claim C8: two repetitions of one observation equal a
single application of the upsert. -/
theorem mac_learning_idempotent_witness :
    (fun x => learn_mac_step x 1 "00:00:00:00:00:07" 4)^[2]
        tEmptyState.mac_to_port =
      learn_mac_step tEmptyState.mac_to_port 1 "00:00:00:00:00:07" 4 :=
  mac_learning_idempotent_last_write.1 tEmptyState.mac_to_port 1
    "00:00:00:00:00:07" 4 2 (by decide)

/-- Witness for claim C9: after the concrete ARP packet-in, the follow-up
HTTP packet towards `10.0.2.1` resolves to the announced MAC and gets a
flow installed towards port 5. -/
theorem arp_learning_enables_resolution_witness :
    packet_in_handler tArpState tMsgB = some
      ({ tArpState with
           mac_to_port := learn_mac_step tArpState.mac_to_port 1 tEthB.src 7 },
       [ OutMsg.flowMod HTTP_FLOW_PRIORITY
           { in_port := some 7, eth_type := some OFP_ETH_TYPE_IP,
             ip_proto := some 6, ipv4_src := some "10.0.2.100",
             ipv4_dst := some "10.0.2.1", tcp_dst := some 80 }
           [ .setFieldIpv4Dst tArp.src_ip, .setFieldEthDst tArp.src_mac,
             .output (.phys 5) false ]
           HTTP_IDLE_TIMEOUT HTTP_HARD_TIMEOUT,
         OutMsg.packetOut 7
           [ .setFieldIpv4Dst tArp.src_ip, .setFieldEthDst tArp.src_mac,
             .output (.phys 5) false ]
           (if tArp.src_ip ≠ tIp4b.dst then
              rewrite_packet tEthB tIp4b tArp.src_ip tArp.src_mac tMsgB.data
            else tMsgB.data) ]) :=
  (arp_learning_enables_resolution tEmptyState tArpMsg tArpEth tArp
      tArpState [OutMsg.packetOut 5 [.output .flood false] tArpPkt]
      rfl rfl rfl).2
    tMsgB tEthB tIp4b tTcp 5 rfl rfl rfl rfl rfl (by decide) (by decide)
    (by decide) (by decide)

/-- Witness for claim C10: a non-ARP packet-in leaves the IP table
untouched. -/
theorem non_arp_preserves_ip_to_mac_witness :
    ({ tEmptyState with
         mac_to_port := learn_mac_step tEmptyState.mac_to_port 1 macClient 2 }
       : CState).ip_to_mac = tEmptyState.ip_to_mac :=
  non_arp_preserves_ip_to_mac tEmptyState tGenMsg
    { tEmptyState with
        mac_to_port := learn_mac_step tEmptyState.mac_to_port 1 macClient 2 }
    [OutMsg.packetOut 2 [.output .flood false] tGenPkt]
    rfl rfl

end CDN
